import Mathlib

/-!
Verification of `tui_e2e/mock_llm_server.py`: the deterministic
trajectory-replay mock LLM server.  The Python module is shallowly embedded:

* JSON values (Python objects produced by `json.loads` / fed to `json.dumps`)
  are the inductive `Json`; a Python `dict` is `Json.obj` with unique keys.
* `TrajectoryReplayState` is a record; its mutating methods become functions
  returning the updated state alongside the result.  The `threading.Lock`
  in the source wraps each whole method body, so every method is a single
  atomic step; interleaved executions are modelled as sequences of these
  atomic steps.
* `time.time()` and the `uuid.uuid4().hex[:24]` draws are nondeterministic
  inputs; they are passed in as explicit parameters (`now`, `cid`, `tid`).
* Python runtime errors that the code can raise (`AttributeError` from
  `.get` on a non-dict, `TypeError` from `"".join` over non-strings) are
  modelled with `Except String`; `json.dumps` serialization and the SSE
  framing (`data: <json>` lines plus the `data: [DONE]` sentinel) are kept
  symbolic in the response body, since no claim is about the raw octets.
* Python default parameter values are passed explicitly at every call site.
-/

/-- A JSON value / dynamically-typed Python object as handled by the server.
Numbers are modelled as integers (every numeric literal in the module is an
integer).  `obj` models a `dict`: an association list with unique keys. -/
inductive Json where
  | null : Json
  | bool : Bool → Json
  | num : Int → Json
  | str : String → Json
  | arr : List Json → Json
  | obj : List (String × Json) → Json

/-- Python truthiness (`bool(x)`) of a JSON value. -/
def Json.truthy : Json → Bool
  | .null => false
  | .bool b => b
  | .num n => n != 0
  | .str s => s != ""
  | .arr xs => !xs.isEmpty
  | .obj fs => !fs.isEmpty

/-- Field access on an object: `j["k"]` when present. -/
def Json.lookup : Json → String → Option Json
  | .obj fs, k => List.lookup k fs
  | _, _ => none

/-- Index access on an array: `j[i]` when present. -/
def Json.idx : Json → Nat → Option Json
  | .arr xs, i => xs[i]?
  | _, _ => none

/-- Python `x.get(key, default)`.  Raises `AttributeError` when `x` is not a
dict (e.g. `json.loads` returned a list, string, number, bool or null). -/
def pyGet (j : Json) (key : String) (default : Json) : Except String Json :=
  match j with
  | .obj fs => .ok ((List.lookup key fs).getD default)
  | _ => .error "AttributeError"

/-- Python `"".join(xs)`: concatenates when every element is a `str`,
raises `TypeError` otherwise. -/
def pyJoinStrs : List Json → Except String String
  | [] => .ok ""
  | .str s :: rest => (pyJoinStrs rest).map (fun r => s ++ r)
  | _ :: _ => .error "TypeError"

/-- Modelled from the spec: `TrajectoryEvent` is defined in
`tui_e2e/trajectory.py`, which is not part of the sources; spec §3 gives its
shape: a `kind` tag, an optional `tool_call` dict, an optional `llm_message`
dict, and an optional fallback `tool_name`.  The two dict-typed fields are
kept as arbitrary JSON values, matching how `mock_llm_server.py` accesses
them (only via truthiness tests and `.get`). -/
structure TrajectoryEvent where
  kind : String
  tool_call : Option Json
  llm_message : Option Json
  tool_name : Option String

/-- Python truthiness of an optional field (`None` is falsy). -/
def pyTruthyOpt : Option Json → Bool
  | none => false
  | some j => j.truthy

/-- `TrajectoryReplayState`: the ordered replay queue plus the mutex-guarded
cursor.  `current_index` is annotated `int` in the source and is only ever 0
or incremented, so it is a `Nat` here. -/
structure TrajectoryReplayState where
  responses : List TrajectoryEvent
  current_index : Nat

/-- Construction as done by `MockLLMServer.start` (dataclass default
`current_index = 0`). -/
def TrajectoryReplayState.mk0 (es : List TrajectoryEvent) : TrajectoryReplayState :=
  ⟨es, 0⟩

/-- `get_next_response`: atomically returns the event at the cursor (if any)
and advances the cursor.  The whole body runs under `self._lock`. -/
def TrajectoryReplayState.get_next_response (s : TrajectoryReplayState) :
    Option TrajectoryEvent × TrajectoryReplayState :=
  if s.current_index ≥ s.responses.length then
    (none, s)
  else
    (s.responses[s.current_index]?, { s with current_index := s.current_index + 1 })

/-- `peek_next_response`: reads the event at the cursor without advancing.
The returned state is the (unchanged) receiver. -/
def TrajectoryReplayState.peek_next_response (s : TrajectoryReplayState) :
    Option TrajectoryEvent × TrajectoryReplayState :=
  if s.current_index ≥ s.responses.length then
    (none, s)
  else
    (s.responses[s.current_index]?, s)

/-- `reset`: sets the cursor back to 0 unconditionally. -/
def TrajectoryReplayState.reset (s : TrajectoryReplayState) : TrajectoryReplayState :=
  { s with current_index := 0 }

/-- `n` successive `get_next_response` calls; the result list is in
execution order.  Because each call is one critical section, any concurrent
execution of `n` calls is exactly one such sequence. -/
def get_next_responses : Nat → TrajectoryReplayState →
    List (Option TrajectoryEvent) × TrajectoryReplayState
  | 0, s => ([], s)
  | n + 1, s =>
    let p := s.get_next_response
    let q := get_next_responses n p.2
    (p.1 :: q.1, q.2)

/-- `DEFAULT_USAGE`: the fixed mock token usage attached to every
completion. -/
def DEFAULT_USAGE : Json :=
  .obj [("prompt_tokens", .num 100), ("completion_tokens", .num 50),
        ("total_tokens", .num 150)]

/-- `OpenAIResponseBuilder.build_completion`.  `now` stands for
`int(time.time())`; the Python default `finish_reason="stop"` is passed
explicitly by all call sites here. -/
def build_completion (now : Int) (completion_id : String) (message : Json)
    (finish_reason : String) : Json :=
  .obj [("id", .str completion_id),
        ("object", .str "chat.completion"),
        ("created", .num now),
        ("model", .str "mock-llm"),
        ("choices", .arr [.obj [("index", .num 0), ("message", message),
          ("finish_reason", .str finish_reason)]]),
        ("usage", DEFAULT_USAGE)]

/-- `OpenAIResponseBuilder.build_stream_chunk` (Python default
`finish_reason=None` becomes `Option.none`, serialized as JSON null). -/
def build_stream_chunk (now : Int) (completion_id : String) (delta : Json)
    (finish_reason : Option String) : Json :=
  .obj [("id", .str completion_id),
        ("object", .str "chat.completion.chunk"),
        ("created", .num now),
        ("model", .str "mock-llm"),
        ("choices", .arr [.obj [("index", .num 0), ("delta", delta),
          ("finish_reason", match finish_reason with
            | some r => .str r
            | none => .null)]])]

/-- `OpenAIResponseBuilder.build_message_chunks`. -/
def build_message_chunks (now : Int) (completion_id : String) (content : String)
    (finish_reason : String) : List Json :=
  [build_stream_chunk now completion_id
      (.obj [("role", .str "assistant"), ("content", .str "")]) none,
   build_stream_chunk now completion_id (.obj [("content", .str content)]) none,
   build_stream_chunk now completion_id (.obj []) (some finish_reason)]

/-- `OpenAIResponseBuilder.build_tool_call_chunks`.  The `tool_call_id`,
`tool_name` and `arguments` parameters are annotated `str` in the source but
receive whatever `tool_call.get` produced, so they are JSON values here. -/
def build_tool_call_chunks (now : Int) (completion_id : String)
    (tool_call_id tool_name arguments : Json) : List Json :=
  [build_stream_chunk now completion_id
      (.obj [("role", .str "assistant"), ("content", .null),
             ("tool_calls", .arr [.obj [("index", .num 0), ("id", tool_call_id),
               ("type", .str "function"),
               ("function", .obj [("name", tool_name),
                 ("arguments", .str "")])]])]) none,
   build_stream_chunk now completion_id
      (.obj [("tool_calls", .arr [.obj [("index", .num 0),
        ("function", .obj [("arguments", arguments)])]])]) none,
   build_stream_chunk now completion_id (.obj []) (some "tool_calls")]

/-- A response envelope pairing the unary completion with the streaming
chunks: the dict `{"completion": ..., "stream_chunks": [...]}` returned by
the converter methods. -/
structure ResponseEnvelope where
  completion : Json
  stream_chunks : List Json

/-- `TrajectoryResponseConverter.create_default_response`.  `cid` stands for
the fresh `uuid.uuid4().hex[:24]` draw; the Python default
`content="Task completed."` is passed explicitly by callers. -/
def create_default_response (now : Int) (cid : String) (content : String) :
    ResponseEnvelope :=
  let completion_id := "chatcmpl-" ++ cid
  { completion := build_completion now completion_id
      (.obj [("role", .str "assistant"), ("content", .str content)]) "stop"
    stream_chunks := build_message_chunks now completion_id content "stop" }

/-- The filter of `_extract_content`'s generator:
`isinstance(item, dict) and item.get("type") == "text"` (a missing or
non-string `type` never equals the string literal `"text"`). -/
def isTextBlock : Json → Bool
  | .obj bfs =>
    match List.lookup "type" bfs with
    | some (.str t) => t == "text"
    | _ => false
  | _ => false

/-- The value of `item.get("text", "")` for a block already known to be a
dict (the generator only applies it to dicts). -/
def blockTextJson : Json → Json
  | .obj bfs => (List.lookup "text" bfs).getD (.str "")
  | _ => .str ""

/-- `TrajectoryResponseConverter._extract_content`.  Can raise:
`AttributeError` when `llm_message` is not a dict, `TypeError` from
`"".join` when a selected block's `text` value is not a string. -/
def _extract_content (llm_message : Json) : Except String String := do
  let content ← pyGet llm_message "content" (.str "")
  match content with
  | .str s => pure s
  | .arr items => pyJoinStrs ((items.filter isTextBlock).map blockTextJson)
  | _ => pure ""

/-- `TrajectoryResponseConverter._create_tool_call_response`.  `cid` is the
fresh completion-id draw, `tid` the fresh draw used for the default
`tool_call_id` (Python evaluates that default eagerly whether used or not;
only its use is observable). -/
def _create_tool_call_response (now : Int) (cid tid : String)
    (event : TrajectoryEvent) : Except String ResponseEnvelope :=
  match event.tool_call with
  | none => .ok (create_default_response now cid "Task completed.")
  | some tool_call =>
    if tool_call.truthy then do
      let tool_call_id ← pyGet tool_call "id" (.str ("call_" ++ tid))
      let tool_name ← pyGet tool_call "name"
        (.str (match event.tool_name with
          | some s => if s != "" then s else "unknown"
          | none => "unknown"))
      let arguments ← pyGet tool_call "arguments" (.str "\x7b\x7d")
      let completion_id := "chatcmpl-" ++ cid
      let message : Json :=
        .obj [("role", .str "assistant"), ("content", .null),
              ("tool_calls", .arr [.obj [("id", tool_call_id),
                ("type", .str "function"),
                ("function", .obj [("name", tool_name),
                  ("arguments", arguments)])]])]
      pure { completion := build_completion now completion_id message "tool_calls"
             stream_chunks := build_tool_call_chunks now completion_id
               tool_call_id tool_name arguments }
    else .ok (create_default_response now cid "Task completed.")

/-- `TrajectoryResponseConverter._create_message_response`. -/
def _create_message_response (now : Int) (cid : String)
    (event : TrajectoryEvent) : Except String ResponseEnvelope :=
  match event.llm_message with
  | none => .ok (create_default_response now cid "Task completed.")
  | some llm_message =>
    if llm_message.truthy then do
      let content ← _extract_content llm_message
      let completion_id := "chatcmpl-" ++ cid
      pure { completion := build_completion now completion_id
               (.obj [("role", .str "assistant"), ("content", .str content)]) "stop"
             stream_chunks := build_message_chunks now completion_id content "stop" }
    else .ok (create_default_response now cid "Task completed.")

/-- `TrajectoryResponseConverter.convert_event`: dispatch on the event kind,
with Python truthiness tests on the optional dict fields. -/
def convert_event (now : Int) (cid tid : String) (event : TrajectoryEvent) :
    Except String ResponseEnvelope :=
  if event.kind = "ActionEvent" ∧ pyTruthyOpt event.tool_call = true then
    _create_tool_call_response now cid tid event
  else if event.kind = "MessageEvent" ∧ pyTruthyOpt event.llm_message = true then
    _create_message_response now cid event
  else .ok (create_default_response now cid "Task completed.")

/-- The body of a `werkzeug` `Response` built by the handler: either a JSON
document (`json.dumps(j)`) or the SSE framing of a chunk list
(`_format_sse_response`: one `data:` frame per chunk, then the `[DONE]`
sentinel); both serializations are kept symbolic. -/
inductive RespBody where
  | jsonBody : Json → RespBody
  | sseBody : List Json → RespBody

/-- A `werkzeug` `Response` as built by the handler. -/
structure Response where
  body : RespBody
  status : Nat
  content_type : String
  headers : List (String × String)

/-- An inbound request as seen by the handler.  `body` is the result of
`json.loads(request.data)`: `none` models a `json.JSONDecodeError`, `some j`
a successful parse to the value `j`. -/
structure Request where
  method : String
  path : String
  body : Option Json

/-- The `handler` closure of `create_request_handler`, with the shared
`replay_state` passed (and returned) explicitly.  The result's first
component is `Except`: `.error` models an uncaught Python exception escaping
the handler (e.g. `AttributeError` from `.get` on a non-dict body). -/
def handler (now : Int) (cid tid : String) (req : Request)
    (replay_state : TrajectoryReplayState) :
    Except String Response × TrajectoryReplayState :=
  let path := req.path
  if (path = "/health" ∨ path = "/") ∧ req.method = "GET" then
    let remaining : Int :=
      (replay_state.responses.length : Int) - (replay_state.current_index : Int)
    (.ok ⟨.jsonBody (.obj [("status", .str "ok"),
        ("server", .str "mock-llm-trajectory"),
        ("responses_remaining", .num remaining)]), 200, "application/json", []⟩,
     replay_state)
  else if path = "/reset" ∧ req.method = "GET" then
    (.ok ⟨.jsonBody (.obj [("status", .str "reset")]), 200,
      "application/json", []⟩, replay_state.reset)
  else if (path = "/chat/completions" ∨ path = "/v1/chat/completions")
      ∧ req.method = "POST" then
    match req.body with
    | none =>
      (.ok ⟨.jsonBody (.obj [("error", .str "Invalid JSON")]), 400,
        "application/json", []⟩, replay_state)
    | some request_data =>
      match pyGet request_data "stream" (.bool false) with
      | .error e => (.error e, replay_state)
      | .ok stream =>
        let drawn := replay_state.get_next_response
        let envE : Except String ResponseEnvelope :=
          match drawn.1 with
          | none => .ok (create_default_response now cid "Task completed.")
          | some event => convert_event now cid tid event
        match envE with
        | .error e => (.error e, drawn.2)
        | .ok response =>
          if stream.truthy then
            (.ok ⟨.sseBody response.stream_chunks, 200, "text/event-stream",
              [("Cache-Control", "no-cache"), ("Connection", "keep-alive")]⟩,
             drawn.2)
          else
            (.ok ⟨.jsonBody response.completion, 200, "application/json", []⟩,
             drawn.2)
  else
    (.ok ⟨.jsonBody (.obj [("error", .str "Not found")]), 404,
      "application/json", []⟩, replay_state)

/-- Results of `n` successive draws starting at cursor `i`: the queued
events from position `i` on (up to `n` of them), padded with `none` once
exhausted. -/
theorem get_next_responses_results (es : List TrajectoryEvent) :
    ∀ (n i : Nat),
      (get_next_responses n ⟨es, i⟩).1
        = ((es.drop i).take n).map some
            ++ List.replicate (n - (es.length - i)) none := by
  intro n
  induction n with
  | zero => intro i; simp [get_next_responses]
  | succ n ih =>
    intro i
    by_cases h : i ≥ es.length
    · have hdrop : es.drop i = [] := List.drop_eq_nil_of_le h
      have hsub : es.length - i = 0 := Nat.sub_eq_zero_of_le h
      simp only [get_next_responses, TrajectoryReplayState.get_next_response,
        ge_iff_le, h, if_true, if_pos]
      rw [ih i]
      simp [hdrop, hsub, List.replicate_succ]
    · push_neg at h
      have hdrop := List.drop_eq_getElem_cons h
      simp only [get_next_responses, TrajectoryReplayState.get_next_response,
        ge_iff_le, if_neg (by omega : ¬ es.length ≤ i)]
      rw [ih (i + 1), List.getElem?_eq_getElem h, hdrop]
      simp only [List.take_succ_cons, List.map_cons, List.cons_append,
        List.cons.injEq, true_and]
      have : n + 1 - (es.length - i) = n - (es.length - (i + 1)) := by omega
      rw [this]

/-- C1: starting from a freshly constructed state over `M` events, the first
`N ≤ M` calls to `get_next_response` return exactly the first `N` events in
their original order (no duplicates, no gaps), and every call past the
`M`-th — the `(M+1)`-th and all later ones, absent a reset — returns
`none`. -/
theorem c1_sequential_replay (es : List TrajectoryEvent) :
    (∀ N, N ≤ es.length →
      (get_next_responses N (TrajectoryReplayState.mk0 es)).1
        = (es.take N).map some) ∧
    (∀ k, (get_next_responses (es.length + k) (TrajectoryReplayState.mk0 es)).1
        = es.map some ++ List.replicate k none) := by
  constructor
  · intro N hN
    rw [TrajectoryReplayState.mk0, get_next_responses_results]
    simp [Nat.sub_eq_zero_of_le hN]
  · intro k
    rw [TrajectoryReplayState.mk0, get_next_responses_results]
    rw [List.drop_zero, Nat.sub_zero, List.take_of_length_le (by omega),
      Nat.add_sub_cancel_left]

/-- Concrete instance of C1: two queued events, `N = 1` and three calls. -/
theorem c1_sequential_replay_witness :
    (get_next_responses 1
        (TrajectoryReplayState.mk0 [⟨"MessageEvent", none, none, none⟩,
          ⟨"ActionEvent", none, none, none⟩])).1
      = ([⟨"MessageEvent", none, none, none⟩,
          ⟨"ActionEvent", none, none, none⟩].take 1).map some ∧
    (get_next_responses 3
        (TrajectoryReplayState.mk0 [⟨"MessageEvent", none, none, none⟩,
          ⟨"ActionEvent", none, none, none⟩])).1
      = [⟨"MessageEvent", none, none, none⟩,
          ⟨"ActionEvent", none, none, none⟩].map some
          ++ List.replicate 1 none := by
  constructor
  · exact (c1_sequential_replay _).1 1 (by decide)
  · exact (c1_sequential_replay _).2 1

/-- C7: the cursor invariant `0 ≤ cursor ≤ len(events)` holds at
construction (`current_index` is a `Nat`, so `0 ≤ cursor` is by type) and is
preserved by every operation: `get_next_response` advances the cursor by
exactly 1 when `cursor < len` and leaves the whole state unchanged when
exhausted (and never touches the event list), `peek_next_response` returns
the state unchanged, and `reset` sets the cursor to 0 from any state. -/
theorem c7_cursor_invariant (es : List TrajectoryEvent)
    (s : TrajectoryReplayState) :
    (TrajectoryReplayState.mk0 es).current_index = 0 ∧
    (TrajectoryReplayState.mk0 es).current_index ≤ es.length ∧
    (s.current_index < s.responses.length →
      s.get_next_response.2.current_index = s.current_index + 1) ∧
    (s.responses.length ≤ s.current_index → s.get_next_response.2 = s) ∧
    s.get_next_response.2.responses = s.responses ∧
    (s.current_index ≤ s.responses.length →
      s.get_next_response.2.current_index ≤ s.responses.length) ∧
    s.peek_next_response.2 = s ∧
    s.reset.current_index = 0 := by
  by_cases h : s.current_index ≥ s.responses.length
  · simp [TrajectoryReplayState.mk0, TrajectoryReplayState.get_next_response,
      TrajectoryReplayState.peek_next_response, TrajectoryReplayState.reset, h]
  · simp [TrajectoryReplayState.mk0, TrajectoryReplayState.get_next_response,
      TrajectoryReplayState.peek_next_response, TrajectoryReplayState.reset, h]
    omega

/-- Concrete instance of C7: a mid-sequence state over one event. -/
theorem c7_cursor_invariant_witness :
    ((⟨[⟨"MessageEvent", none, none, none⟩], 0⟩ :
        TrajectoryReplayState).get_next_response).2.current_index = 0 + 1 :=
  (c7_cursor_invariant [] ⟨[⟨"MessageEvent", none, none, none⟩], 0⟩).2.2.1
    (by decide)

/-- C8: `peek_next_response` immediately followed by `get_next_response`
returns the same result from both calls (both `none` or both the same
event); the peek performs no mutation, and the pair advances the cursor by
exactly 1 in total when the result is non-empty and not at all when it is
empty. -/
theorem c8_peek_then_get (s : TrajectoryReplayState) :
    s.peek_next_response.1 = s.peek_next_response.2.get_next_response.1 ∧
    s.peek_next_response.2 = s ∧
    (s.peek_next_response.1 ≠ none →
      s.peek_next_response.2.get_next_response.2.current_index
        = s.current_index + 1) ∧
    (s.peek_next_response.1 = none →
      s.peek_next_response.2.get_next_response.2 = s) := by
  by_cases h : s.current_index ≥ s.responses.length
  · simp [TrajectoryReplayState.peek_next_response,
      TrajectoryReplayState.get_next_response, h]
  · push_neg at h
    have hn : ¬ s.responses.length ≤ s.current_index := by omega
    simp [TrajectoryReplayState.peek_next_response,
      TrajectoryReplayState.get_next_response, hn,
      List.getElem?_eq_getElem h]

/-- Concrete instance of C8: a fresh state over one event. -/
theorem c8_peek_then_get_witness :
    ((⟨[⟨"MessageEvent", none, none, none⟩], 0⟩ :
        TrajectoryReplayState).peek_next_response).2.get_next_response.2.current_index
      = 0 + 1 :=
  (c8_peek_then_get ⟨[⟨"MessageEvent", none, none, none⟩], 0⟩).2.2.1
    (by simp [TrajectoryReplayState.peek_next_response])

/-- An interleaved execution of one `get_next_response` call per thread:
`sched` is the order in which the threads' calls execute (each list entry is
a thread id).  Because the whole body of `get_next_response` runs inside
`self._lock`, no interleaving can split a call, so every concurrent
execution is exactly one such schedule. -/
def run_threads (sched : List Nat) (s : TrajectoryReplayState) :
    List (Nat × Option TrajectoryEvent) × TrajectoryReplayState :=
  match sched with
  | [] => ([], s)
  | t :: rest =>
    let p := s.get_next_response
    let q := run_threads rest p.2
    ((t, p.1) :: q.1, q.2)

/-- The thread ids do not influence the draws: a schedule of `n` threads
draws exactly what `n` successive calls draw. -/
theorem run_threads_results (sched : List Nat) (s : TrajectoryReplayState) :
    (run_threads sched s).1.map Prod.snd
      = (get_next_responses sched.length s).1 := by
  induction sched generalizing s with
  | nil => simp [run_threads, get_next_responses]
  | cons t rest ih =>
    simp [run_threads, get_next_responses, ih]

/-- C9: for every schedule of `M` threads each performing one (atomic,
lock-protected) `get_next_response` call against a fresh state over `M`
events, the calls collectively return every queued event exactly once, in
queue order along the execution order — no duplicates, no omissions,
whatever the interleaving. -/
theorem c9_concurrent_draws (es : List TrajectoryEvent) (sched : List Nat)
    (h : sched.length = es.length) :
    (run_threads sched (TrajectoryReplayState.mk0 es)).1.map Prod.snd
      = es.map some := by
  rw [run_threads_results, h, TrajectoryReplayState.mk0,
    get_next_responses_results]
  simp

/-- Concrete instance of C9: two threads, scheduled second thread first,
against two queued events. -/
theorem c9_concurrent_draws_witness :
    (run_threads [1, 0]
        (TrajectoryReplayState.mk0 [⟨"MessageEvent", none, none, none⟩,
          ⟨"ActionEvent", none, none, none⟩])).1.map Prod.snd
      = [⟨"MessageEvent", none, none, none⟩,
          ⟨"ActionEvent", none, none, none⟩].map some :=
  c9_concurrent_draws _ [1, 0] (by decide)

/-- The `delta` carried by a streaming chunk: `chunk["choices"][0]["delta"]`. -/
def chunkDelta (c : Json) : Option Json :=
  ((c.lookup "choices").bind (fun a => a.idx 0)).bind (fun ch => ch.lookup "delta")

/-- The `finish_reason` carried by a streaming chunk:
`chunk["choices"][0]["finish_reason"]`. -/
def chunkFinish (c : Json) : Option Json :=
  ((c.lookup "choices").bind (fun a => a.idx 0)).bind
    (fun ch => ch.lookup "finish_reason")

/-- C4: `build_tool_call_chunks` returns exactly 3 chunks.  The 1st delta is
`\x7brole: "assistant", content: null, tool_calls: [\x7bindex: 0,
id: tool_call_id, type: "function", function: \x7bname: tool_name,
arguments: ""\x7d\x7d]\x7d`; the 2nd delta carries the full arguments value
in one fragment, with no `id` or `type` field; the 3rd delta is the empty
object with `finish_reason = "tool_calls"` and no `tool_calls` field.  The
first two chunks carry a null `finish_reason`. -/
theorem c4_tool_call_chunks_shape (now : Int) (completion_id : String)
    (tool_call_id tool_name arguments : Json) :
    (build_tool_call_chunks now completion_id tool_call_id tool_name
        arguments).length = 3 ∧
    (build_tool_call_chunks now completion_id tool_call_id tool_name
        arguments).map chunkDelta
      = [some (.obj [("role", .str "assistant"), ("content", .null),
           ("tool_calls", .arr [.obj [("index", .num 0), ("id", tool_call_id),
             ("type", .str "function"),
             ("function", .obj [("name", tool_name),
               ("arguments", .str "")])]])]),
         some (.obj [("tool_calls", .arr [.obj [("index", .num 0),
           ("function", .obj [("arguments", arguments)])]])]),
         some (.obj [])] ∧
    (build_tool_call_chunks now completion_id tool_call_id tool_name
        arguments).map chunkFinish
      = [some .null, some .null, some (.str "tool_calls")] := by
  refine ⟨rfl, ?_, ?_⟩ <;>
    simp [build_tool_call_chunks, build_stream_chunk, chunkDelta, chunkFinish,
      Json.lookup, Json.idx, List.lookup]

/-- Whether a JSON value is a string. -/
def Json.isStr : Json → Bool
  | .str _ => true
  | _ => false

/-- Concatenation of a list of strings, in order. -/
def concatAll : List String → String
  | [] => ""
  | s :: rest => s ++ concatAll rest

/-- The text contributed by a single content block, as the claim states it:
a block tagged as text contributes its `text` value, every other block
contributes nothing. -/
def blockContribution (item : Json) : String :=
  if isTextBlock item then
    match blockTextJson item with
    | .str s => s
    | _ => ""
  else ""

/-- Joining the selected blocks' text values equals the in-order
concatenation of every block's contribution, provided each selected block's
`text` value is a string. -/
theorem pyJoinStrs_filter (items : List Json)
    (h : items.all
      (fun item => !(isTextBlock item) || (blockTextJson item).isStr) = true) :
    pyJoinStrs ((items.filter isTextBlock).map blockTextJson)
      = .ok (concatAll (items.map blockContribution)) := by
  induction items with
  | nil => rfl
  | cons item rest ih =>
    rw [List.all_cons, Bool.and_eq_true] at h
    obtain ⟨hhead, hrest⟩ := h
    by_cases hb : isTextBlock item
    · rw [hb, Bool.not_true, Bool.false_or] at hhead
      cases hj : blockTextJson item with
      | str s =>
        simp [List.filter_cons, hb, hj, pyJoinStrs, ih hrest,
          blockContribution, concatAll, Except.map]
      | null => rw [hj] at hhead; cases hhead
      | bool b => rw [hj] at hhead; cases hhead
      | num n => rw [hj] at hhead; cases hhead
      | arr xs => rw [hj] at hhead; cases hhead
      | obj fs => rw [hj] at hhead; cases hhead
    · simp [List.filter_cons, hb, blockContribution, concatAll, ih hrest]

/-- C6: for an `llm_message` dict, the extracted text is the `content`
field verbatim when that field is a string; when the field is a list of
blocks (each selected block carrying a string `text` value), the extracted
text is the in-order concatenation of the contributions of all blocks,
where exactly the blocks tagged `type == "text"` contribute their text and
every other block contributes nothing. -/
theorem c6_extract_content (fs : List (String × Json)) :
    (∀ s, List.lookup "content" fs = some (.str s) →
      _extract_content (.obj fs) = .ok s) ∧
    (∀ items, List.lookup "content" fs = some (.arr items) →
      items.all
        (fun item => !(isTextBlock item) || (blockTextJson item).isStr) = true →
      _extract_content (.obj fs)
        = .ok (concatAll (items.map blockContribution))) := by
  constructor
  · intro s hs
    simp [_extract_content, pyGet, hs, Except.bind, bind, pure, Except.pure]
  · intro items hi hwf
    simp [_extract_content, pyGet, hi, pyJoinStrs_filter items hwf,
      Except.bind, bind, pure, Except.pure]

/-- Concrete instance of C6: a mixed block list — two text blocks, an image
block and a bare string block; only the text blocks contribute. -/
theorem c6_extract_content_witness :
    _extract_content (.obj [("content", .arr
        [.obj [("type", .str "text"), ("text", .str "he")],
         .obj [("type", .str "image"), ("url", .str "x")],
         .str "ignored",
         .obj [("type", .str "text"), ("text", .str "llo")]])])
      = .ok (concatAll
          ([.obj [("type", .str "text"), ("text", .str "he")],
            .obj [("type", .str "image"), ("url", .str "x")],
            .str "ignored",
            .obj [("type", .str "text"), ("text", .str "llo")]].map
            blockContribution)) :=
  (c6_extract_content _).2 _ rfl (by decide)

/-- Internal id-consistency of a response envelope: it has exactly 3 stream
chunks, and the unary completion and every chunk carry one and the same
completion id. -/
def idConsistent (env : ResponseEnvelope) : Prop :=
  env.stream_chunks.length = 3 ∧
  ∃ i, env.completion.lookup "id" = some (.str i) ∧
    ∀ c ∈ env.stream_chunks, c.lookup "id" = some (.str i)

/-- A completion paired with message chunks built over the same id is
id-consistent. -/
theorem idConsistent_message (now : Int) (id : String) (msg : Json)
    (content : String) (fr fr2 : String) :
    idConsistent ⟨build_completion now id msg fr,
      build_message_chunks now id content fr2⟩ := by
  refine ⟨rfl, id, ?_, ?_⟩ <;>
    simp [build_completion, build_message_chunks, build_stream_chunk,
      Json.lookup, List.lookup]

/-- A completion paired with tool-call chunks built over the same id is
id-consistent. -/
theorem idConsistent_tool (now : Int) (id : String) (msg : Json)
    (fr : String) (tci tn args : Json) :
    idConsistent ⟨build_completion now id msg fr,
      build_tool_call_chunks now id tci tn args⟩ := by
  refine ⟨rfl, id, ?_, ?_⟩ <;>
    simp [build_completion, build_tool_call_chunks, build_stream_chunk,
      Json.lookup, List.lookup]

/-- C10: every envelope produced by `create_default_response` or (when it
succeeds) by `convert_event` is internally id-consistent: the unary
completion's `id` equals the `id` of each of the three stream chunks — one
completion id per conversion, shared across both protocol shapes. -/
theorem c10_envelope_id_consistent (now : Int) (cid tid : String)
    (content : String) (event : TrajectoryEvent) (env : ResponseEnvelope) :
    idConsistent (create_default_response now cid content) ∧
    (convert_event now cid tid event = .ok env → idConsistent env) := by
  constructor
  · exact idConsistent_message now ("chatcmpl-" ++ cid) _ content "stop" "stop"
  · intro h
    rw [convert_event] at h
    split at h
    · rw [_create_tool_call_response] at h
      split at h
      · injection h with h
        rw [← h]
        exact idConsistent_message now ("chatcmpl-" ++ cid) _ _ "stop" "stop"
      · rename_i tool_call heq
        split at h
        · cases tool_call with
          | obj tfs =>
            simp only [pyGet, Except.bind, bind, pure, Except.pure] at h
            injection h with h
            rw [← h]
            exact idConsistent_tool now ("chatcmpl-" ++ cid) _ "tool_calls" _ _ _
          | null => simp [pyGet, Except.bind, bind] at h
          | bool b => simp [pyGet, Except.bind, bind] at h
          | num n => simp [pyGet, Except.bind, bind] at h
          | str s => simp [pyGet, Except.bind, bind] at h
          | arr xs => simp [pyGet, Except.bind, bind] at h
        · injection h with h
          rw [← h]
          exact idConsistent_message now ("chatcmpl-" ++ cid) _ _ "stop" "stop"
    · split at h
      · rw [_create_message_response] at h
        split at h
        · injection h with h
          rw [← h]
          exact idConsistent_message now ("chatcmpl-" ++ cid) _ _ "stop" "stop"
        · rename_i m heq2
          split at h
          · cases hc : _extract_content m with
            | ok s =>
              rw [hc] at h
              simp only [Except.bind, bind, pure, Except.pure] at h
              injection h with h
              rw [← h]
              exact idConsistent_message now ("chatcmpl-" ++ cid) _ s "stop" "stop"
            | error e =>
              rw [hc] at h
              simp [Except.bind, bind] at h
          · injection h with h
            rw [← h]
            exact idConsistent_message now ("chatcmpl-" ++ cid) _ _ "stop" "stop"
      · injection h with h
        rw [← h]
        exact idConsistent_message now ("chatcmpl-" ++ cid) _ _ "stop" "stop"

/-- Concrete instance of C10: an `ActionEvent` carrying a tool call. -/
theorem c10_envelope_id_consistent_witness :
    idConsistent (create_default_response 0 "abc" "Task completed.") ∧
    idConsistent ⟨build_completion 0 "chatcmpl-abc"
        (.obj [("role", .str "assistant"), ("content", .null),
          ("tool_calls", .arr [.obj [("id", .str "call_1"),
            ("type", .str "function"),
            ("function", .obj [("name", .str "bash"),
              ("arguments", .str "\x7b\x7d")])]])]) "tool_calls",
      build_tool_call_chunks 0 "chatcmpl-abc" (.str "call_1") (.str "bash")
        (.str "\x7b\x7d")⟩ := by
  have h := c10_envelope_id_consistent 0 "abc" "t" "Task completed."
    ⟨"ActionEvent",
      some (.obj [("id", .str "call_1"), ("name", .str "bash"),
        ("arguments", .str "\x7b\x7d")]), none, none⟩
    ⟨build_completion 0 "chatcmpl-abc"
        (.obj [("role", .str "assistant"), ("content", .null),
          ("tool_calls", .arr [.obj [("id", .str "call_1"),
            ("type", .str "function"),
            ("function", .obj [("name", .str "bash"),
              ("arguments", .str "\x7b\x7d")])]])]) "tool_calls",
      build_tool_call_chunks 0 "chatcmpl-abc" (.str "call_1") (.str "bash")
        (.str "\x7b\x7d")⟩
  exact ⟨h.1, h.2 rfl⟩

/-- C3: a chat-completions POST whose body fails to parse as JSON yields
status 400 with body `\x7berror: "Invalid JSON"\x7d` and leaves the replay
state untouched (the cursor draw happens only after a successful parse);
any request hitting none of the three routes yields status 404 with body
`\x7berror: "Not found"\x7d` and no state mutation. -/
theorem c3_error_paths_no_mutation (now : Int) (cid tid : String)
    (m p : String) (b : Option Json) (st : TrajectoryReplayState) :
    ((p = "/chat/completions" ∨ p = "/v1/chat/completions") →
      handler now cid tid ⟨"POST", p, none⟩ st
        = (.ok ⟨.jsonBody (.obj [("error", .str "Invalid JSON")]), 400,
            "application/json", []⟩, st)) ∧
    (¬ ((p = "/health" ∨ p = "/") ∧ m = "GET") →
      ¬ (p = "/reset" ∧ m = "GET") →
      ¬ ((p = "/chat/completions" ∨ p = "/v1/chat/completions") ∧ m = "POST") →
      handler now cid tid ⟨m, p, b⟩ st
        = (.ok ⟨.jsonBody (.obj [("error", .str "Not found")]), 404,
            "application/json", []⟩, st)) := by
  constructor
  · intro hp
    rcases hp with hp | hp <;> subst hp <;> simp [handler]
  · intro h1 h2 h3
    simp [handler, h1, h2, h3]

/-- Concrete instance of C3: a malformed body on `/chat/completions` and a
POST to `/health` (wrong method for that route). -/
theorem c3_error_paths_no_mutation_witness :
    handler 0 "c" "t" ⟨"POST", "/chat/completions", none⟩
        (TrajectoryReplayState.mk0 [])
      = (.ok ⟨.jsonBody (.obj [("error", .str "Invalid JSON")]), 400,
          "application/json", []⟩, TrajectoryReplayState.mk0 []) ∧
    handler 0 "c" "t" ⟨"POST", "/health", some (.obj [])⟩
        (TrajectoryReplayState.mk0 [])
      = (.ok ⟨.jsonBody (.obj [("error", .str "Not found")]), 404,
          "application/json", []⟩, TrajectoryReplayState.mk0 []) := by
  constructor
  · exact (c3_error_paths_no_mutation 0 "c" "t" "POST" "/chat/completions"
      none (TrajectoryReplayState.mk0 [])).1 (Or.inl rfl)
  · exact (c3_error_paths_no_mutation 0 "c" "t" "POST" "/health"
      (some (.obj [])) (TrajectoryReplayState.mk0 [])).2
      (by simp) (by simp) (by simp)

/-- `completion["choices"][0]["message"]["content"]`. -/
def completionMessageContent (completion : Json) : Option Json :=
  (((completion.lookup "choices").bind (fun a => a.idx 0)).bind
    (fun ch => ch.lookup "message")).bind (fun msg => msg.lookup "content")

/-- C5: an exhausted trajectory is not an error: when the draw returns
`none` the handler answers 200 with the default envelope, whose unary
completion carries `choices[0].message.content = "Task completed."`; and
`convert_event` falls back to the same default envelope for any event of an
unhandled kind. -/
theorem c5_exhausted_default (now : Int) (cid tid : String) (p : String)
    (fields : List (String × Json)) (st : TrajectoryReplayState)
    (hp : p = "/chat/completions" ∨ p = "/v1/chat/completions")
    (hex : st.responses.length ≤ st.current_index)
    (hstream :
      ((List.lookup "stream" fields).getD (.bool false)).truthy = false) :
    (handler now cid tid ⟨"POST", p, some (.obj fields)⟩ st).1
      = .ok ⟨.jsonBody
          (create_default_response now cid "Task completed.").completion,
          200, "application/json", []⟩ ∧
    completionMessageContent
        (create_default_response now cid "Task completed.").completion
      = some (.str "Task completed.") ∧
    (∀ e : TrajectoryEvent,
      ¬ (e.kind = "ActionEvent" ∧ pyTruthyOpt e.tool_call = true) →
      ¬ (e.kind = "MessageEvent" ∧ pyTruthyOpt e.llm_message = true) →
      convert_event now cid tid e
        = .ok (create_default_response now cid "Task completed.")) := by
  refine ⟨?_, ?_, ?_⟩
  · rcases hp with hp | hp <;> subst hp <;>
      simp [handler, pyGet, TrajectoryReplayState.get_next_response,
        Nat.not_lt.mpr hex, hstream, hex]
  · rfl
  · intro e h1 h2
    rw [convert_event, if_neg h1, if_neg h2]

/-- Concrete instance of C5: an exhausted one-event state and an event of
kind `Observation`. -/
theorem c5_exhausted_default_witness :
    (handler 0 "c" "t" ⟨"POST", "/v1/chat/completions", some (.obj [])⟩
        ⟨[⟨"MessageEvent", none, none, none⟩], 1⟩).1
      = .ok ⟨.jsonBody
          (create_default_response 0 "c" "Task completed.").completion,
          200, "application/json", []⟩ ∧
    convert_event 0 "c" "t" ⟨"Observation", none, none, none⟩
      = .ok (create_default_response 0 "c" "Task completed.") := by
  have h := c5_exhausted_default 0 "c" "t" "/v1/chat/completions" []
    ⟨[⟨"MessageEvent", none, none, none⟩], 1⟩ (Or.inr rfl) (by decide) (by decide)
  exact ⟨h.1, h.2.2 ⟨"Observation", none, none, none⟩ (by simp [pyTruthyOpt])
    (by simp [pyTruthyOpt])⟩

/-- C2 as stated is violated by the code: a POST to `/chat/completions`
whose body is the syntactically valid JSON array `[]` makes the handler
raise `AttributeError` at `request_data.get("stream", False)` — a list has
no `.get` — instead of returning a response. -/
theorem c2_counterexample :
    (handler 0 "c" "t" ⟨"POST", "/chat/completions", some (.arr [])⟩
        (TrajectoryReplayState.mk0 [])).1
      = .error "AttributeError" := by
  rfl

/-- Well-formedness of an event, per the spec's §3 data model: a truthy
`tool_call` is a dict, and a truthy `llm_message` is a dict whose `content`,
when it is a block list, carries string `text` values on its text-tagged
blocks.  Exactly the events on which `convert_event` cannot raise. -/
def eventOk (e : TrajectoryEvent) : Bool :=
  (match e.tool_call with
   | none => true
   | some (.obj _) => true
   | some j => !j.truthy) &&
  (match e.llm_message with
   | none => true
   | some (.obj fs) =>
     (match (List.lookup "content" fs).getD (.str "") with
      | .arr items => items.all
          (fun item => !(isTextBlock item) || (blockTextJson item).isStr)
      | _ => true)
   | some j => !j.truthy)

/-- On a message dict whose `content` block list (if any) is well-formed,
`_extract_content` always succeeds. -/
theorem _extract_content_ok (fs : List (String × Json))
    (hlm : (match (List.lookup "content" fs).getD (.str "") with
      | Json.arr items => items.all
          (fun item => !(isTextBlock item) || (blockTextJson item).isStr)
      | _ => true) = true) :
    ∃ s, _extract_content (.obj fs) = .ok s := by
  rw [_extract_content]
  simp only [pyGet, Except.bind, bind, pure, Except.pure]
  cases hc : (List.lookup "content" fs).getD (.str "") with
  | null => exact ⟨_, rfl⟩
  | bool b => exact ⟨_, rfl⟩
  | num n => exact ⟨_, rfl⟩
  | str s => exact ⟨_, rfl⟩
  | obj ofs => exact ⟨_, rfl⟩
  | arr items =>
    rw [hc] at hlm
    simp only at hlm
    exact ⟨_, pyJoinStrs_filter items hlm⟩

/-- On a well-formed event, `convert_event` always succeeds. -/
theorem convert_event_ok (now : Int) (cid tid : String)
    (e : TrajectoryEvent) (hwf : eventOk e = true) :
    ∃ env, convert_event now cid tid e = .ok env := by
  rw [eventOk, Bool.and_eq_true] at hwf
  obtain ⟨htc, hlm⟩ := hwf
  rw [convert_event]
  split
  · rename_i hA
    rw [_create_tool_call_response]
    cases h : e.tool_call with
    | none => exact ⟨_, rfl⟩
    | some tc =>
      rw [h] at htc hA
      cases tc with
      | obj tfs =>
        cases ht : Json.truthy (.obj tfs) with
        | true =>
          simp only [ht, if_true, pyGet, Except.bind, bind, pure, Except.pure]
          exact ⟨_, rfl⟩
        | false =>
          simp only [ht, Bool.false_eq_true, if_false]
          exact ⟨_, rfl⟩
      | null => simp [pyTruthyOpt, Json.truthy] at hA
      | bool b => simp only at htc; simp_all [Json.truthy]
      | num n => simp only at htc; simp_all [Json.truthy]
      | str s => simp only at htc; simp_all [Json.truthy]
      | arr xs => simp only at htc; simp_all [Json.truthy]
  · split
    · rename_i hB
      rw [_create_message_response]
      cases h : e.llm_message with
      | none => exact ⟨_, rfl⟩
      | some m =>
        rw [h] at hlm hB
        cases m with
        | obj fs =>
          cases ht : Json.truthy (.obj fs) with
          | true =>
            simp only [ht, if_true]
            obtain ⟨s, hs⟩ := _extract_content_ok fs hlm
            rw [hs]
            simp only [Except.bind, bind, pure, Except.pure]
            exact ⟨_, rfl⟩
          | false =>
            simp only [ht, Bool.false_eq_true, if_false]
            exact ⟨_, rfl⟩
        | null => simp [pyTruthyOpt, Json.truthy] at hB
        | bool b => simp only at hlm; simp_all [Json.truthy]
        | num n => simp only at hlm; simp_all [Json.truthy]
        | str s => simp only at hlm; simp_all [Json.truthy]
        | arr xs => simp only at hlm; simp_all [Json.truthy]
    · exact ⟨_, rfl⟩

/-- A successfully drawn event is one of the queued events. -/
theorem get_next_response_mem (s : TrajectoryReplayState) (e : TrajectoryEvent)
    (h : s.get_next_response.1 = some e) : e ∈ s.responses := by
  rw [TrajectoryReplayState.get_next_response] at h
  split at h
  · cases h
  · exact List.getElem?_mem h

/-- C2, amended: the claim held for bodies parsing to a JSON object, but
not for every valid JSON body.  For every POST to `/chat/completions` or
`/v1/chat/completions` whose body parses to a JSON object (of any fields),
against a state whose events conform to the spec's data model, the handler
returns a response (SSE when `stream` is truthy, else the unary completion)
with status 200 and without raising; bodies that fail to parse take the 400
branch, but a body parsing to a non-object JSON value makes the handler
raise `AttributeError` instead of returning (see the counterexample). -/
theorem c2_object_bodies_total (now : Int) (cid tid : String) (p : String)
    (fields : List (String × Json)) (st : TrajectoryReplayState)
    (hp : p = "/chat/completions" ∨ p = "/v1/chat/completions")
    (hwf : st.responses.all eventOk = true) :
    ∃ r, (handler now cid tid ⟨"POST", p, some (.obj fields)⟩ st).1 = .ok r
      ∧ r.status = 200 := by
  have hconv : ∀ e ∈ st.responses, ∃ env, convert_event now cid tid e = .ok env :=
    fun e he => convert_event_ok now cid tid e (List.all_eq_true.mp hwf e he)
  rcases hp with hp | hp <;> subst hp
  · simp only [handler, pyGet]
    cases hd : st.get_next_response.1 with
    | none =>
      simp only [hd]
      cases hs : ((List.lookup "stream" fields).getD (.bool false)).truthy <;>
        simp [hs]
    | some e =>
      obtain ⟨env, henv⟩ := hconv e (get_next_response_mem st e hd)
      simp only [hd, henv]
      cases hs : ((List.lookup "stream" fields).getD (.bool false)).truthy <;>
        simp [hs]
  · simp only [handler, pyGet]
    cases hd : st.get_next_response.1 with
    | none =>
      simp only [hd]
      cases hs : ((List.lookup "stream" fields).getD (.bool false)).truthy <;>
        simp [hs]
    | some e =>
      obtain ⟨env, henv⟩ := hconv e (get_next_response_mem st e hd)
      simp only [hd, henv]
      cases hs : ((List.lookup "stream" fields).getD (.bool false)).truthy <;>
        simp [hs]

/-- Concrete instance of the amended C2: an object body with `stream` absent
against a one-event state. -/
theorem c2_object_bodies_total_witness :
    ∃ r, (handler 0 "c" "t" ⟨"POST", "/chat/completions", some (.obj [])⟩
        (TrajectoryReplayState.mk0 [⟨"MessageEvent", none,
          some (.obj [("content", .str "hello")]), none⟩])).1 = .ok r
      ∧ r.status = 200 :=
  c2_object_bodies_total 0 "c" "t" "/chat/completions" []
    (TrajectoryReplayState.mk0 [⟨"MessageEvent", none,
      some (.obj [("content", .str "hello")]), none⟩])
    (Or.inl rfl) (by decide)
